import Mathlib

/-!
Verification of the claude-code-api CLI runner (`cli_runner/claude_code.py`)
against its specification.

The development shallowly embeds the runner: JSON values produced by
`json.loads` become the inductive `PyVal`; the stdout classification loop
(`_stream_stdout_handler`) becomes a pure fold over a list of decoded lines;
one subprocess invocation (`_run_claude_instance`) and the retry supervisor
(`run_claude_code`) become functions parameterised by an environment mapping
an argument vector to the subprocess behaviour.  Logging side effects are
modelled as an emitted list of `LogEvent`s (the structured `extra` fields,
which carry only session-correlation ids, are not modelled; no claim
concerns them).  The model assumes stdout bytes decode as UTF-8 (the source
decodes outside its try block; no claim concerns decode errors).
-/

set_option maxHeartbeats 1000000
set_option maxRecDepth 100000
set_option linter.unnecessarySeqFocus false

/-- A Python value as produced by `json.loads`: strings, ints, bools, `None`,
lists and dicts.  Dicts built by `json.loads` have unique keys (later
duplicates overwrite earlier ones at parse time); lookup is therefore
last-binding-wins, matching Python dict construction. -/
inductive PyVal where
  | str (s : String)
  | int (n : Int)
  | bool (b : Bool)
  | null
  | list (xs : List PyVal)
  | dict (kvs : List (String × PyVal))

/-- Python `d.get(k)`: `none` models Python `None` for an absent key.
Last binding wins, as in a dict built by repeated insertion. -/
def pyGet : List (String × PyVal) → String → Option PyVal
  | [], _ => none
  | (k', v) :: rest, k =>
    match pyGet rest k with
    | some w => some w
    | none => if k' = k then some v else none

/-- Python truthiness (`bool(v)`) for the modelled values. -/
def pyTruthy : PyVal → Bool
  | .str s => !(s == "")
  | .int n => !(n == 0)
  | .bool b => b
  | .null => false
  | .list xs => !xs.isEmpty
  | .dict kvs => !kvs.isEmpty

mutual
/-- Python `repr(v)`.  Escape sequences inside string `repr` are not
modelled (no claim depends on them). -/
def pyRepr : PyVal → String
  | .str s => "\x27" ++ s ++ "\x27"
  | .int n => toString n
  | .bool b => if b then "True" else "False"
  | .null => "None"
  | .list xs => "[" ++ pyReprList xs ++ "]"
  | .dict kvs => "\x7b" ++ pyReprKVs kvs ++ "\x7d"

/-- Comma-joined `repr`s of the elements of a list. -/
def pyReprList : List PyVal → String
  | [] => ""
  | [x] => pyRepr x
  | x :: y :: rest => pyRepr x ++ ", " ++ pyReprList (y :: rest)

/-- Comma-joined `repr`s of the key/value pairs of a dict. -/
def pyReprKVs : List (String × PyVal) → String
  | [] => ""
  | [(k, v)] => "\x27" ++ k ++ "\x27: " ++ pyRepr v
  | (k, v) :: p :: rest => "\x27" ++ k ++ "\x27: " ++ pyRepr v ++ ", " ++ pyReprKVs (p :: rest)
end

/-- Python `str(v)`: the string itself for strings, `repr` otherwise. -/
def pyStr : PyVal → String
  | .str s => s
  | v => pyRepr v

/-- Python `str` of an optional value, where `none` is Python `None`. -/
def optPyStr (o : Option PyVal) : String :=
  pyStr (o.getD .null)

/-- Whether `needle` is a prefix of `hay`, on character lists. -/
def listIsPrefixOf : List Char → List Char → Bool
  | [], _ => true
  | _ :: _, [] => false
  | a :: as, b :: bs => a == b && listIsPrefixOf as bs

/-- Whether `needle` occurs contiguously in `hay`, on character lists. -/
def listContainsSub (needle : List Char) : List Char → Bool
  | [] => listIsPrefixOf needle []
  | c :: rest => listIsPrefixOf needle (c :: rest) || listContainsSub needle rest

/-- Python substring containment `needle in hay`. -/
def strContains (hay needle : String) : Bool :=
  listContainsSub needle.data hay.data

/-- Python `s.strip()`: drop leading and trailing whitespace characters.
(Python strips all Unicode whitespace; `Char.isWhitespace` covers the
ASCII whitespace that arises here.) -/
def pyStrip (s : String) : String :=
  ⟨((s.data.dropWhile (fun c => c.isWhitespace)).reverse.dropWhile
      (fun c => c.isWhitespace)).reverse⟩

/-- The string content of an optional value when it is a Python `str`;
`none` otherwise.  `v == "lit"` in Python holds exactly when this extraction
yields `some "lit"`. -/
def asPyString : Option PyVal → Option String
  | some (.str s) => some s
  | _ => none

example : strContains "abcdef" "cde" = true := by decide
example : strContains "abcdef" "cdf" = false := by decide
example : pyGet [("a", .int 1), ("a", .int 2)] "a" = some (.int 2) := rfl
example : pyStr (.dict [("k", .str "v")]) = "\x7b\x27k\x27: \x27v\x27\x7d" := rfl

/-! ## The stdout stream handler (`_stream_stdout_handler`, lines 78-140) -/

/-- Levels of the Python `logging` calls made by the runner. -/
inductive LogLevel where
  | debug
  | info
  | warning
  | error
  | critical
deriving DecidableEq

/-- One emitted log record: level and rendered message text.  The structured
`extra` dict (session-correlation ids and status) is not modelled. -/
structure LogEvent where
  level : LogLevel
  msg : String
deriving DecidableEq

/-- Result of applying `json.loads` to one stripped line: `failure` models a
raised `json.JSONDecodeError`, `value v` a successful parse. -/
inductive ParsedLine where
  | failure
  | value (v : PyVal)

/-- One record of the primary byte stream: the UTF-8 decoded text (`raw`,
exactly as yielded by the reader, before the handler strips it) together
with the outcome of JSON-parsing its stripped form. -/
structure Line where
  raw : String
  parsed : ParsedLine

/-- How processing one parsed line ends inside the `try` block: fall through
to the next line, `return data`, or raise an exception that the handler's
`except Exception` arm catches (`e` abstracts the exception's text). -/
inductive LineStep where
  | cont
  | ret (data : PyVal)
  | exn (e : String)

/-- Truncation: `(input_str[:250] + '...') if len(input_str) > 250 else input_str`. -/
def truncate250 (s : String) : String :=
  if s.length > 250 then s.take 250 ++ "..." else s

/-- Rendering `", ".join([f"{k}='{v}'" for k, v in tool_input.items()])`. -/
def renderToolInput (kvs : List (String × PyVal)) : String :=
  String.intercalate ", " (kvs.map (fun p => p.1 ++ "=\x27" ++ pyStr p.2 ++ "\x27"))

/-- Python iteration `for content_item in content_list`: a list yields its
elements, a string its one-character strings, a dict its keys; ints, bools
and `None` are not iterable (`none` models the raised `TypeError`). -/
def iterItems : PyVal → Option (List PyVal)
  | .list xs => some xs
  | .str s => some (s.data.map (fun c => PyVal.str (String.singleton c)))
  | .dict kvs => some (kvs.map (fun p => PyVal.str p.1))
  | .int _ => none
  | .bool _ => none
  | .null => none

/-- The `for content_item in content_list` body of the `assistant` branch
(lines 106-120): accumulates the log events emitted before either the list
is exhausted (`none`) or an item raises (`some e`, e.g. `.get` on a
non-dict item or `.items()`/`.strip()` on a value of the wrong type). -/
def processContentItems : List PyVal → List LogEvent × Option String
  | [] => ([], none)
  | item :: rest =>
    match item with
    | .dict kvs =>
      let itemType := asPyString (pyGet kvs "type")
      if itemType = some "tool_use" then
        match (pyGet kvs "input").getD (.dict []) with
        | .dict inputKvs =>
          let ev : LogEvent :=
            ⟨.info, "[ASSISTANT] Tool Use: "
              ++ pyStr ((pyGet kvs "name").getD (.str "UnknownTool"))
              ++ "(" ++ truncate250 (renderToolInput inputKvs) ++ ")"⟩
          let t := processContentItems rest
          (ev :: t.1, t.2)
        | _ => ([], some "AttributeError")
      else if itemType = some "text" then
        match (pyGet kvs "text").getD (.str "") with
        | .str s =>
          if pyStrip s = "" then processContentItems rest
          else
            let ev : LogEvent := ⟨.info, "[ASSISTANT] Response: " ++ truncate250 (pyStrip s)⟩
            let t := processContentItems rest
            (ev :: t.1, t.2)
        | _ => ([], some "AttributeError")
      else if itemType = some "thinking" then
        let t := processContentItems rest
        (⟨.info, "[ASSISTANT] Thinking..."⟩ :: t.1, t.2)
      else processContentItems rest
    | _ => ([], some "AttributeError")

/-- The `try` body for one successfully parsed line (lines 86-127): `data`
is the parsed value and `line` the stripped line text (used in the
unhandled-type debug message).  A non-dict `data` raises at `data.get`. -/
def processParsed (data : PyVal) (line : String) : List LogEvent × LineStep :=
  match data with
  | .dict kvs =>
    let msgType := asPyString (pyGet kvs "type")
    if msgType = some "system" then
      ([⟨.info, "[SYSTEM] Initialized in directory: "
          ++ pyStr ((pyGet kvs "cwd").getD (.str "N/A"))⟩], .cont)
    else if msgType = some "assistant" then
      match (pyGet kvs "message").getD (.dict []) with
      | .dict msgKvs =>
        match iterItems ((pyGet msgKvs "content").getD (.list [])) with
        | none => ([], .exn "TypeError")
        | some items =>
          match processContentItems items with
          | (logs, none) => (logs, .cont)
          | (logs, some e) => (logs, .exn e)
      | _ => ([], .exn "AttributeError")
    else if msgType = some "result" then
      ([⟨.info, "[FINAL MESSAGE] Received."⟩], .ret data)
    else if msgType = some "user" then ([], .cont)
    else ([⟨.debug, "[OTHER] Unhandled message type: " ++ line⟩], .cont)
  | _ => ([], .exn "AttributeError")

/-- One iteration of the `async for line in stream` loop (lines 81-138):
skip a raw-empty record, then strip, parse and process, converting the two
`except` arms into their log events.  `some d` means the loop executed
`return d`. -/
def handleLine (l : Line) : List LogEvent × Option PyVal :=
  if l.raw = "" then ([], none)
  else
    let line := pyStrip l.raw
    match l.parsed with
    | .failure =>
      ([⟨.warning, "Received non-JSON line from stdout: " ++ line⟩], none)
    | .value data =>
      match processParsed data line with
      | (logs, .ret d) => (logs, some d)
      | (logs, .cont) => (logs, none)
      | (logs, .exn e) =>
        (logs ++ [⟨.error, "Error processing stream line: " ++ line ++ ". Error: " ++ e⟩], none)

/-- The handler `_stream_stdout_handler` as a fold over the decoded records: emitted log
events plus the returned terminal `result` payload, `none` when the stream
ends without one (line 140). -/
def stream_stdout_handler : List Line → List LogEvent × Option PyVal
  | [] => ([], none)
  | l :: rest =>
    match handleLine l with
    | (logs, some d) => (logs, some d)
    | (logs, none) =>
      let t := stream_stdout_handler rest
      (logs ++ t.1, t.2)

/-! ## Configuration and command construction (lines 22-76, 188-209) -/

/-- The enum `CLAUDE_CODE_MODELS` (a `StrEnum`: each member is its string value). -/
inductive CLAUDE_CODE_MODELS where
  | claude_sonnet_4
  | claude_opus_4
deriving DecidableEq

/-- The string value of a model enum member. -/
def CLAUDE_CODE_MODELS.val : CLAUDE_CODE_MODELS → String
  | .claude_sonnet_4 => "claude-sonnet-4-20250514"
  | .claude_opus_4 => "claude-opus-4-20250514"

/-- The enum `FilePermissions`. -/
inductive FilePermissions where
  | read_only
  | full_access
deriving DecidableEq

/-- The `ClaudeCodeRunner.__slots__` fields: the stored fields after construction. -/
structure ClaudeCodeRunner where
  permissions : FilePermissions
  retries : Nat

/-- Constructor `ClaudeCodeRunner.__init__`: `self._retries = max(0, retries)`. -/
def ClaudeCodeRunner.init (permissions : FilePermissions) (retries : Int) : ClaudeCodeRunner :=
  ⟨permissions, (max 0 retries).toNat⟩

/-- The method `_get_allowed_tools`. -/
def get_allowed_tools (p : FilePermissions) : List String :=
  match p with
  | .read_only =>
    ["Read", "LS", "Glob", "Grep", "WebFetch", "WebSearch", "Bash", "TodoRead", "Agent"]
  | .full_access =>
    ["Read", "LS", "Glob", "Grep", "Write", "Edit", "MultiEdit", "Bash",
     "NotebookRead", "NotebookEdit", "TodoRead", "TodoWrite", "WebFetch",
     "WebSearch", "Agent"]

/-- The vector `cmd_base` as it stands after the conditional `append` of
`--dangerously-skip-permissions` (lines 188-202). -/
def cmdBase (r : ClaudeCodeRunner) (prompt : String) (model : CLAUDE_CODE_MODELS) : List String :=
  ["claude", "-p", prompt, "--output-format", "stream-json", "--model", model.val,
   "--verbose", "--allowedTools", String.intercalate "," (get_allowed_tools r.permissions)]
  ++ (if r.permissions = .full_access then ["--dangerously-skip-permissions"] else [])

/-- The vector `cmd_with_c = ["claude", "-c"] + cmd_base[1:]` (line 209). -/
def cmdWithC (r : ClaudeCodeRunner) (prompt : String) (model : CLAUDE_CODE_MODELS) : List String :=
  ["claude", "-c"] ++ (cmdBase r prompt model).tail

/-! ## One invocation (`_run_claude_instance`, lines 152-245) -/

/-- The exception classes the runner distinguishes: `ClaudeProcessError`
(message plus optional `result_data`), `OSError` from process launch, and
any other exception class (never caught by the retry loop). -/
inductive PyExc where
  | processError (msg : String) (resultData : Option PyVal)
  | osError (msg : String)
  | other (msg : String)

/-- Behaviour of one subprocess launch for a given argument vector:
either an exception raised while launching/awaiting it, or a completed run
with its exit code, raw stderr text and decoded stdout records.  (The
working directory and inherited environment do not influence any modelled
observable and are absorbed into the environment function.) -/
inductive ExecResult where
  | raise (e : PyExc)
  | ran (returnCode : Int) (stderrRaw : String) (stdoutLines : List Line)

/-- The inner `_run_and_stream` (lines 161-186): launch, drain both pipes, and return
`(returncode, stderr, final_result_json)`; the stderr handler (lines
142-150) returns the decoded stderr stripped. -/
def run_and_stream (env : List String → ExecResult) (cmd : List String) :
    Except PyExc (Int × String × Option PyVal) :=
  match env cmd with
  | .raise e => .error e
  | .ran rc stderrRaw lines => .ok (rc, pyStrip stderrRaw, (stream_stdout_handler lines).2)

/-- The validation tail of `_run_claude_instance` (lines 226-245), applied
to the final `(return_code, stderr, result_obj)` triple.  `if not
result_obj` is Python truthiness: `None` and the (unreachable for handler
output) empty dict both fail it; `result_obj.get` on a truthy non-dict
would raise `AttributeError`. -/
def validateOutcome (rc : Int) (stderr : String) (resultObj : Option PyVal) :
    Except PyExc PyVal :=
  if rc ≠ 0 then
    .error (.processError
      ("CLI tool failed with exit code " ++ toString rc ++ ". Stderr: " ++ stderr) none)
  else
    match resultObj with
    | none =>
      .error (.processError "CLI tool finished but produced no final result object." none)
    | some obj =>
      if pyTruthy obj = false then
        .error (.processError "CLI tool finished but produced no final result object." none)
      else
        match obj with
        | .dict kvs =>
          let isErr := (pyGet kvs "is_error").getD (.bool true)
          let subtype := pyGet kvs "subtype"
          if pyTruthy isErr = true ∨ asPyString subtype ≠ some "success" then
            .error (.processError
              ("Claude returned a non-successful result. Subtype: \x27"
                ++ optPyStr subtype ++ "\x27, Is Error: " ++ pyStr isErr ++ ".")
              (some obj))
          else .ok ((pyGet kvs "result").getD (.str ""))
        | _ => .error (.other "AttributeError")

/-- The marker `"No prior conversation history found"` (line 212). -/
def noHistoryMarker : String := "No prior conversation history found"

/-- Run one argument vector to a validated outcome: `_run_and_stream`
followed by the validation tail, exceptions propagating. -/
def attemptResult (env : List String → ExecResult) (cmd : List String) :
    Except PyExc PyVal :=
  match run_and_stream env cmd with
  | .error e => .error e
  | .ok (rc, stderr, res) => validateOutcome rc stderr res

/-- What one call of `_run_claude_instance` produced: its result (the
returned `result_obj.get("result", "")` value or the raised exception) and
the argument vectors it executed, in order. -/
structure InstanceOut where
  res : Except PyExc PyVal
  cmds : List (List String)

/-- The method `_run_claude_instance` (lines 152-245): with the continuation flag, run
`cmd_with_c` first and, exactly when it exits non-zero with the no-history
marker in its stripped stderr, immediately rerun `cmd_base`; then validate
the final triple.  (`prompt`/`model` feed the argument vector; the
`directory` and `run_session_id` parameters affect only the subprocess cwd
and log correlation, absorbed into `env` / not modelled.) -/
def run_claude_instance (r : ClaudeCodeRunner) (env : List String → ExecResult)
    (prompt : String) (model : CLAUDE_CODE_MODELS) (continue_conversation : Bool) :
    InstanceOut :=
  let base := cmdBase r prompt model
  if continue_conversation then
    let cmdC := cmdWithC r prompt model
    match run_and_stream env cmdC with
    | .error e => ⟨.error e, [cmdC]⟩
    | .ok (rc, stderr, res) =>
      if rc ≠ 0 ∧ strContains stderr noHistoryMarker = true then
        ⟨attemptResult env base, [cmdC, base]⟩
      else ⟨validateOutcome rc stderr res, [cmdC]⟩
  else ⟨attemptResult env base, [base]⟩

/-! ## The retry supervisor (`run_claude_code`, lines 247-282) -/

/-- Externally visible ordered events of one supervisor call: backoff
sleeps (`asyncio.sleep(2 ** attempt)`) and subprocess executions. -/
inductive RunEvent where
  | sleep (t : Nat)
  | exec (cmd : List String)

/-- How the supervisor call ends: the returned result value, the aggregate
exhaustion `ClaudeProcessError` (message and `__cause__`), or a fatal
exception propagating out of the loop uncaught. -/
inductive RunOutcome where
  | success (v : PyVal)
  | exhausted (msg : String) (cause : Option PyExc)
  | fatal (e : PyExc)

/-- Trace of one `run_claude_code` call: ordered events, number of
attempts (calls of `_run_claude_instance`) made, and the outcome. -/
structure RunTrace where
  events : List RunEvent
  attempts : Nat
  outcome : RunOutcome

/-- Whether `except (ClaudeProcessError, OSError)` catches the exception. -/
def retryable : PyExc → Bool
  | .processError _ _ => true
  | .osError _ => true
  | .other _ => false

/-- The error of an `Except`, if any. -/
def errPart : Except PyExc PyVal → Option PyExc
  | .error e => some e
  | .ok _ => none

/-- The `for attempt in range(self._retries + 1)` loop (lines 257-282):
`attempt` is the current index, the fuel is the number of iterations left,
`lastExc` the current `last_exception`.  Falling off the loop raises the
aggregate error `from last_exception`. -/
def runLoop (r : ClaudeCodeRunner) (env : Nat → List String → ExecResult)
    (prompt : String) (model : CLAUDE_CODE_MODELS) (continue_conversation : Bool) :
    Nat → Nat → Option PyExc → RunTrace
  | _, 0, lastExc =>
    ⟨[], 0,
      .exhausted ("All " ++ toString (r.retries + 1) ++ " attempts to run Claude failed.")
        lastExc⟩
  | attempt, fuel + 1, _lastExc =>
    let pre : List RunEvent := if 0 < attempt then [.sleep (2 ^ attempt)] else []
    let out := run_claude_instance r (env attempt) prompt model continue_conversation
    let execs := out.cmds.map RunEvent.exec
    match out.res with
    | .ok v => ⟨pre ++ execs, 1, .success v⟩
    | .error e =>
      if retryable e then
        let t := runLoop r env prompt model continue_conversation (attempt + 1) fuel (some e)
        ⟨pre ++ execs ++ t.events, 1 + t.attempts, t.outcome⟩
      else ⟨pre ++ execs, 1, .fatal e⟩

/-- The method `run_claude_code` (lines 247-282): the public entry point.  The
environment maps an attempt index and argument vector to the subprocess
behaviour, making each attempt's external world explicit. -/
def run_claude_code (r : ClaudeCodeRunner) (env : Nat → List String → ExecResult)
    (prompt : String) (model : CLAUDE_CODE_MODELS) (continue_conversation : Bool) :
    RunTrace :=
  runLoop r env prompt model continue_conversation 0 (r.retries + 1) none

/-- The result of attempt `k` under environment `env`. -/
def instanceRes (r : ClaudeCodeRunner) (env : Nat → List String → ExecResult)
    (prompt : String) (model : CLAUDE_CODE_MODELS) (continue_conversation : Bool)
    (k : Nat) : Except PyExc PyVal :=
  (run_claude_instance r (env k) prompt model continue_conversation).res

/-- The events attempt `k` contributes to the supervisor trace: its backoff
sleep (for `k ≥ 1`) followed by its subprocess executions. -/
def attemptEvents (r : ClaudeCodeRunner) (env : Nat → List String → ExecResult)
    (prompt : String) (model : CLAUDE_CODE_MODELS) (continue_conversation : Bool)
    (k : Nat) : List RunEvent :=
  (if 0 < k then [RunEvent.sleep (2 ^ k)] else [])
    ++ (run_claude_instance r (env k) prompt model continue_conversation).cmds.map RunEvent.exec

/-! ## Lemmas about the stream handler -/

/-- A lookup that succeeds implies the dict is nonempty. -/
theorem pyGet_ne_nil {kvs : List (String × PyVal)} {k : String} {v : PyVal}
    (h : pyGet kvs k = some v) : kvs ≠ [] := by
  intro hnil; subst hnil; simp [pyGet] at h

/-- Processing a parsed line executes `return` exactly on a dict whose
`type` field is the string `"result"`, returning the dict itself. -/
theorem processParsed_ret {data : PyVal} {line : String} {d : PyVal}
    (h : (processParsed data line).2 = .ret d) :
    d = data ∧ ∃ kvs, data = PyVal.dict kvs ∧ asPyString (pyGet kvs "type") = some "result" := by
  cases data with
  | dict kvs =>
    by_cases hsys : asPyString (pyGet kvs "type") = some "system"
    · simp [processParsed, hsys] at h
    by_cases hasst : asPyString (pyGet kvs "type") = some "assistant"
    · simp only [processParsed, hsys, hasst, if_true, if_false] at h
      rcases hmsg : (pyGet kvs "message").getD (.dict []) with s | n | b | _ | xs | mkvs <;>
        simp [hmsg] at h <;>
        rcases hit : iterItems ((pyGet mkvs "content").getD (.list [])) with _ | items <;>
          simp [hit] at h <;>
          rcases hpc : processContentItems items with ⟨logs, _ | e⟩ <;> simp [hpc] at h
    by_cases hres : asPyString (pyGet kvs "type") = some "result"
    · refine ⟨?_, kvs, rfl, hres⟩
      simp [processParsed, hsys, hasst, hres] at h
      exact h.symm
    · by_cases huser : asPyString (pyGet kvs "type") = some "user" <;>
        simp [processParsed, hsys, hasst, hres, huser] at h
  | str s => simp [processParsed] at h
  | int n => simp [processParsed] at h
  | bool b => simp [processParsed] at h
  | null => simp [processParsed] at h
  | list xs => simp [processParsed] at h

/-- Handling a dict line whose `type` is `"result"` logs the final-message
record and returns the dict. -/
theorem handleLine_result {l : Line} {kvs : List (String × PyVal)}
    (hraw : l.raw ≠ "") (hp : l.parsed = .value (.dict kvs))
    (ht : asPyString (pyGet kvs "type") = some "result") :
    handleLine l = ([⟨.info, "[FINAL MESSAGE] Received."⟩], some (.dict kvs)) := by
  have h1 : asPyString (pyGet kvs "type") ≠ some "system" := by rw [ht]; decide
  have h2 : asPyString (pyGet kvs "type") ≠ some "assistant" := by rw [ht]; decide
  simp [handleLine, hraw, hp, processParsed, ht, h1, h2]

/-- A payload returned by the handler is a dict whose `type` is `"result"`. -/
theorem handleLine_some {l : Line} {d : PyVal} (h : (handleLine l).2 = some d) :
    ∃ kvs, d = PyVal.dict kvs ∧ asPyString (pyGet kvs "type") = some "result" := by
  by_cases hraw : l.raw = ""
  · simp [handleLine, hraw] at h
  rcases hp : l.parsed with _ | v
  · simp [handleLine, hraw, hp] at h
  · rcases hpp : processParsed v (pyStrip l.raw) with ⟨logs, step⟩
    cases step with
    | cont => simp [handleLine, hraw, hp, hpp] at h
    | exn e => simp [handleLine, hraw, hp, hpp] at h
    | ret d' =>
      have hd : d' = d := by
        simp [handleLine, hraw, hp, hpp] at h
        exact h
      have hret : (processParsed v (pyStrip l.raw)).2 = LineStep.ret d' := by rw [hpp]
      rcases processParsed_ret hret with ⟨rfl, kvs, rfl, ht⟩
      exact ⟨kvs, hd.symm, ht⟩

/-- A payload returned by the stream handler is a dict whose `type` is
`"result"`. -/
theorem stream_stdout_handler_some :
    ∀ {lines : List Line} {d : PyVal}, (stream_stdout_handler lines).2 = some d →
      ∃ kvs, d = PyVal.dict kvs ∧ asPyString (pyGet kvs "type") = some "result"
  | [], _, h => by simp [stream_stdout_handler] at h
  | l :: rest, d, h => by
    rcases hh : handleLine l with ⟨logs, o⟩
    cases o with
    | some d' =>
      have : (handleLine l).2 = some d' := by rw [hh]
      have hd : d' = d := by
        simp only [stream_stdout_handler, hh] at h; cases h; rfl
      subst hd
      exact handleLine_some this
    | none =>
      simp only [stream_stdout_handler, hh] at h
      exact stream_stdout_handler_some h

/-- Consuming lines that do not return leaves the rest of the stream's
output unchanged, with their log events prepended. -/
theorem stream_append_of_no_ret :
    ∀ (pre rest : List Line), (∀ l ∈ pre, (handleLine l).2 = none) →
      stream_stdout_handler (pre ++ rest) =
        ((stream_stdout_handler pre).1 ++ (stream_stdout_handler rest).1,
          (stream_stdout_handler rest).2)
  | [], rest, _ => by simp [stream_stdout_handler]
  | l :: pre, rest, h => by
    have hl : (handleLine l).2 = none := h l (List.mem_cons_self _ _)
    have ih := stream_append_of_no_ret pre rest (fun x hx => h x (List.mem_cons_of_mem _ hx))
    rcases hh : handleLine l with ⟨logs, o⟩
    rw [hh] at hl; subst hl
    simp [stream_stdout_handler, hh, ih]

/-! ## Claims about the stream handler (C4, C5, C7, C8) -/

/-- Claim C4: For every well-formed line sequence on the primary channel
containing exactly one result record, the stdout consumer returns that
record's payload, and lines following the result record on the same channel
are never consumed: the consuming loop returns immediately once a message of
type `result` is classified. -/
theorem claimC4 (pre post : List Line) (l : Line) (kvs : List (String × PyVal))
    (hpre : ∀ x ∈ pre, (handleLine x).2 = none)
    (hraw : l.raw ≠ "") (hp : l.parsed = .value (.dict kvs))
    (ht : asPyString (pyGet kvs "type") = some "result") :
    (stream_stdout_handler (pre ++ l :: post)).2 = some (.dict kvs) ∧
    stream_stdout_handler (pre ++ l :: post) = stream_stdout_handler (pre ++ [l]) := by
  have hL := handleLine_result hraw hp ht
  have h1 := stream_append_of_no_ret pre (l :: post) hpre
  have h2 := stream_append_of_no_ret pre [l] hpre
  have hs1 : stream_stdout_handler (l :: post) =
      ([⟨.info, "[FINAL MESSAGE] Received."⟩], some (.dict kvs)) := by
    simp [stream_stdout_handler, hL]
  have hs2 : stream_stdout_handler [l] =
      ([⟨.info, "[FINAL MESSAGE] Received."⟩], some (.dict kvs)) := by
    simp [stream_stdout_handler, hL]
  rw [h1, h2, hs1, hs2]
  exact ⟨rfl, rfl⟩

/-- A concrete `system` record. -/
def sysLineW : Line :=
  ⟨"sys", .value (.dict [("type", .str "system"), ("cwd", .str "/tmp")])⟩

/-- A concrete successful `result` record. -/
def resLineW : Line :=
  ⟨"res", .value (.dict [("type", .str "result"), ("subtype", .str "success"),
    ("is_error", .bool false), ("result", .str "ok")])⟩

/-- A concrete second `result` record appearing after the first. -/
def extraLineW : Line := ⟨"extra", .value (.dict [("type", .str "result")])⟩

theorem claimC4_witness :
    (stream_stdout_handler [sysLineW, resLineW, extraLineW]).2 =
      some (.dict [("type", .str "result"), ("subtype", .str "success"),
        ("is_error", .bool false), ("result", .str "ok")]) ∧
    stream_stdout_handler [sysLineW, resLineW, extraLineW] =
      stream_stdout_handler [sysLineW, resLineW] :=
  claimC4 [sysLineW] [extraLineW] resLineW _
    (by intro x hx; rw [List.mem_singleton] at hx; subst hx; rfl)
    (by decide) rfl rfl

/-- Claim C5: A line of the primary channel that is not valid JSON produces a
warning-level log and is otherwise ignored: it never fails the attempt,
never terminates stream consumption, and does not affect the classification
of subsequent lines; valid JSON whose processing throws is likewise logged
at error level and skipped. -/
theorem claimC5 (l : Line) (rest : List Line) (hraw : l.raw ≠ "") :
    (l.parsed = .failure →
      handleLine l =
        ([⟨.warning, "Received non-JSON line from stdout: " ++ pyStrip l.raw⟩], none) ∧
      stream_stdout_handler (l :: rest) =
        (⟨.warning, "Received non-JSON line from stdout: " ++ pyStrip l.raw⟩
            :: (stream_stdout_handler rest).1,
          (stream_stdout_handler rest).2)) ∧
    (∀ v logs e, l.parsed = .value v → processParsed v (pyStrip l.raw) = (logs, .exn e) →
      handleLine l =
        (logs ++ [⟨.error, "Error processing stream line: " ++ pyStrip l.raw ++ ". Error: " ++ e⟩],
          none) ∧
      stream_stdout_handler (l :: rest) =
        ((logs ++ [⟨.error, "Error processing stream line: " ++ pyStrip l.raw ++ ". Error: " ++ e⟩])
            ++ (stream_stdout_handler rest).1,
          (stream_stdout_handler rest).2)) := by
  constructor
  · intro hp
    have hL : handleLine l =
        ([⟨.warning, "Received non-JSON line from stdout: " ++ pyStrip l.raw⟩], none) := by
      simp [handleLine, hraw, hp]
    exact ⟨hL, by simp [stream_stdout_handler, hL]⟩
  · intro v logs e hp hpp
    have hL : handleLine l =
        (logs ++ [⟨.error, "Error processing stream line: " ++ pyStrip l.raw ++ ". Error: " ++ e⟩],
          none) := by
      simp [handleLine, hraw, hp, hpp]
    exact ⟨hL, by simp [stream_stdout_handler, hL]⟩

theorem claimC5_witness :
    handleLine ⟨"oops", .failure⟩ =
      ([⟨.warning, "Received non-JSON line from stdout: " ++ pyStrip "oops"⟩], none) ∧
    stream_stdout_handler [⟨"oops", .failure⟩, resLineW] =
      (⟨.warning, "Received non-JSON line from stdout: " ++ pyStrip "oops"⟩
          :: (stream_stdout_handler [resLineW]).1,
        (stream_stdout_handler [resLineW]).2) :=
  (claimC5 ⟨"oops", .failure⟩ [resLineW] (by decide)).1 rfl

/-- Claim C7, as stated, is false: The record `" "` has decoded content of
zero length after stripping, yet the handler does not skip it: the raw-bytes
emptiness test (`if not line`) runs before stripping, so the record reaches
`json.loads("")`, which raises, and a warning is logged. -/
theorem claimC7_counterexample :
    pyStrip (Line.mk " " .failure).raw = "" ∧
    handleLine ⟨" ", .failure⟩ =
      ([⟨.warning, "Received non-JSON line from stdout: " ++ pyStrip " "⟩], none) ∧
    (handleLine ⟨" ", .failure⟩).1 ≠ [] := by
  refine ⟨by decide, rfl, ?_⟩
  intro h
  rw [show handleLine ⟨" ", .failure⟩ =
      ([⟨.warning, "Received non-JSON line from stdout: " ++ pyStrip " "⟩], none)
    from rfl] at h
  simp at h

/-- Claim C7, amended: Only records whose raw content is empty before
stripping are skipped entirely, with no classification and no log emission;
a record that is nonempty but whose content strips to zero length is not
skipped: its stripped form fails JSON parsing, producing a warning-level
log, and the sequence continues unaffected with later records. -/
theorem claimC7_amended (l : Line) (rest : List Line) :
    (l.raw = "" →
      handleLine l = ([], none) ∧
      stream_stdout_handler (l :: rest) = stream_stdout_handler rest) ∧
    (l.raw ≠ "" → pyStrip l.raw = "" → l.parsed = .failure →
      handleLine l = ([⟨.warning, "Received non-JSON line from stdout: "⟩], none) ∧
      stream_stdout_handler (l :: rest) =
        (⟨.warning, "Received non-JSON line from stdout: "⟩ :: (stream_stdout_handler rest).1,
          (stream_stdout_handler rest).2)) := by
  constructor
  · intro hraw
    have hL : handleLine l = ([], none) := by simp [handleLine, hraw]
    exact ⟨hL, by simp [stream_stdout_handler, hL]⟩
  · intro hraw htrim hp
    have hL : handleLine l = ([⟨.warning, "Received non-JSON line from stdout: "⟩], none) := by
      simp [handleLine, hraw, hp, htrim, String.append_empty]
    exact ⟨hL, by simp [stream_stdout_handler, hL]⟩

theorem claimC7_witness :
    (handleLine ⟨"", .failure⟩ = ([], none) ∧
      stream_stdout_handler [⟨"", .failure⟩, resLineW] = stream_stdout_handler [resLineW]) ∧
    (handleLine ⟨" ", .failure⟩ =
        ([⟨.warning, "Received non-JSON line from stdout: "⟩], none) ∧
      stream_stdout_handler [⟨" ", .failure⟩, resLineW] =
        (⟨.warning, "Received non-JSON line from stdout: "⟩
            :: (stream_stdout_handler [resLineW]).1,
          (stream_stdout_handler [resLineW]).2)) :=
  ⟨(claimC7_amended ⟨"", .failure⟩ [resLineW]).1 rfl,
   (claimC7_amended ⟨" ", .failure⟩ [resLineW]).2 (by decide) (by decide) rfl⟩

/-- Claim C8: For every assistant message, the logged rendering of a
`tool_use` content item's input key/value pairs, and of a `text` content
item's text, is truncated to at most 250 characters and ellipsis-suffixed
when it exceeds the limit; text items that are empty after stripping
produce no log at all. -/
theorem claimC8 (kvs : List (String × PyVal)) (rest : List PyVal) :
    (∀ inputKvs, asPyString (pyGet kvs "type") = some "tool_use" →
      (pyGet kvs "input").getD (.dict []) = .dict inputKvs →
      processContentItems (.dict kvs :: rest) =
        (⟨.info, "[ASSISTANT] Tool Use: "
            ++ pyStr ((pyGet kvs "name").getD (.str "UnknownTool"))
            ++ "(" ++ truncate250 (renderToolInput inputKvs) ++ ")"⟩
          :: (processContentItems rest).1, (processContentItems rest).2)) ∧
    (∀ s, asPyString (pyGet kvs "type") = some "text" →
      (pyGet kvs "text").getD (.str "") = .str s →
      (pyStrip s ≠ "" →
        processContentItems (.dict kvs :: rest) =
          (⟨.info, "[ASSISTANT] Response: " ++ truncate250 (pyStrip s)⟩
            :: (processContentItems rest).1, (processContentItems rest).2)) ∧
      (pyStrip s = "" → processContentItems (.dict kvs :: rest) = processContentItems rest)) ∧
    (∀ t : String, (t.length > 250 →
        truncate250 t = t.take 250 ++ "..." ∧ (t.take 250).length = 250 ∧
        (truncate250 t).length = 253) ∧
      (t.length ≤ 250 → truncate250 t = t)) := by
  refine ⟨?_, ?_, ?_⟩
  · intro inputKvs ht hi
    simp [processContentItems, ht, hi]
  · intro s ht hs
    have hne : asPyString (pyGet kvs "type") ≠ some "tool_use" := by rw [ht]; decide
    constructor
    · intro htrim
      simp [processContentItems, ht, hs, hne, htrim]
    · intro htrim
      simp [processContentItems, ht, hs, hne, htrim]
  · intro t
    constructor
    · intro hgt
      have hdata : t.data.length = t.length := rfl
      have htake : (t.take 250).length = 250 := by
        rw [String.take_eq]
        show (t.data.take 250).length = 250
        rw [List.length_take]
        omega
      have htrunc : truncate250 t = t.take 250 ++ "..." := by
        simp only [truncate250]
        rw [if_pos (by omega)]
      refine ⟨htrunc, htake, ?_⟩
      rw [htrunc, String.length_append, htake]
      rfl
    · intro hle
      simp only [truncate250]
      rw [if_neg (by omega)]

/-- A concrete `tool_use` content item. -/
def toolUseItemW : List (String × PyVal) :=
  [("type", .str "tool_use"), ("name", .str "Bash"), ("input", .dict [("cmd", .str "ls")])]

/-- A 300-character string, for exercising truncation. -/
def longStrW : String := ⟨List.replicate 300 'a'⟩

theorem claimC8_witness :
    (processContentItems [.dict toolUseItemW] =
      (⟨.info, "[ASSISTANT] Tool Use: "
          ++ pyStr ((pyGet toolUseItemW "name").getD (.str "UnknownTool"))
          ++ "(" ++ truncate250 (renderToolInput [("cmd", .str "ls")]) ++ ")"⟩
        :: (processContentItems []).1, (processContentItems []).2)) ∧
    (truncate250 longStrW = longStrW.take 250 ++ "..." ∧
      (longStrW.take 250).length = 250 ∧ (truncate250 longStrW).length = 253) ∧
    processContentItems [.dict [("type", PyVal.str "text"), ("text", PyVal.str "  ")]] =
      processContentItems [] :=
  ⟨(claimC8 toolUseItemW []).1 [("cmd", .str "ls")] rfl rfl,
   ((claimC8 [] []).2.2 longStrW).1 (by decide),
   ((claimC8 [("type", PyVal.str "text"), ("text", PyVal.str "  ")] []).2.1 "  " rfl rfl).2
     (by decide)⟩

/-! ## Lemmas about one invocation -/

/-- Running `_run_claude_instance` without the continuation flag, when the launch
completes: it runs `cmd_base` once and validates the outcome. -/
theorem run_claude_instance_false {r : ClaudeCodeRunner} {env : List String → ExecResult}
    {prompt : String} {model : CLAUDE_CODE_MODELS} {rc : Int} {stderrRaw : String}
    {lines : List Line}
    (henv : env (cmdBase r prompt model) = .ran rc stderrRaw lines) :
    run_claude_instance r env prompt model false =
      ⟨validateOutcome rc (pyStrip stderrRaw) (stream_stdout_handler lines).2,
        [cmdBase r prompt model]⟩ := by
  simp [run_claude_instance, attemptResult, run_and_stream, henv]

/-- Running `_run_claude_instance` with the continuation flag, when the `-c` launch
completes: the fallback run of `cmd_base` happens exactly when the exit code
is non-zero and the stripped stderr contains the no-history marker. -/
theorem run_claude_instance_true_ran {r : ClaudeCodeRunner} {env : List String → ExecResult}
    {prompt : String} {model : CLAUDE_CODE_MODELS} {rc : Int} {stderrRaw : String}
    {lines : List Line}
    (henv : env (cmdWithC r prompt model) = .ran rc stderrRaw lines) :
    run_claude_instance r env prompt model true =
      if rc ≠ 0 ∧ strContains (pyStrip stderrRaw) noHistoryMarker = true then
        ⟨attemptResult env (cmdBase r prompt model),
          [cmdWithC r prompt model, cmdBase r prompt model]⟩
      else
        ⟨validateOutcome rc (pyStrip stderrRaw) (stream_stdout_handler lines).2,
          [cmdWithC r prompt model]⟩ := by
  simp only [run_claude_instance, run_and_stream, henv, if_true]

/-- Running `_run_claude_instance` with the continuation flag, when the `-c` launch
itself raises: the exception propagates after the single sub-attempt. -/
theorem run_claude_instance_true_raise {r : ClaudeCodeRunner} {env : List String → ExecResult}
    {prompt : String} {model : CLAUDE_CODE_MODELS} {e : PyExc}
    (henv : env (cmdWithC r prompt model) = .raise e) :
    run_claude_instance r env prompt model true = ⟨.error e, [cmdWithC r prompt model]⟩ := by
  simp only [run_claude_instance, run_and_stream, henv, if_true]

/-! ## Claims about one invocation (C6, C2, C3, C10) -/

/-- Claim C6: For every attempt, the subprocess argument vector is exactly
`[program, "-p", prompt, "--output-format", "stream-json", "--model",
<model-id>, "--verbose", "--allowedTools", <comma-joined allowed-tool
list>]`, suffixed with the permission-bypass flag if and only if the
permission mode is `full_access`, and prefixed with the continuation flag
(directly after the program name) exactly on the continuation
sub-attempt. -/
theorem claimC6 (r : ClaudeCodeRunner) (env : List String → ExecResult)
    (prompt : String) (model : CLAUDE_CODE_MODELS) :
    (run_claude_instance r env prompt model false).cmds =
      [["claude", "-p", prompt, "--output-format", "stream-json", "--model", model.val,
         "--verbose", "--allowedTools",
         String.intercalate "," (get_allowed_tools r.permissions)]
        ++ (if r.permissions = .full_access then ["--dangerously-skip-permissions"] else [])] ∧
    ((run_claude_instance r env prompt model true).cmds =
      [["claude", "-c", "-p", prompt, "--output-format", "stream-json", "--model", model.val,
         "--verbose", "--allowedTools",
         String.intercalate "," (get_allowed_tools r.permissions)]
        ++ (if r.permissions = .full_access then ["--dangerously-skip-permissions"] else [])] ∨
     (run_claude_instance r env prompt model true).cmds =
      [["claude", "-c", "-p", prompt, "--output-format", "stream-json", "--model", model.val,
         "--verbose", "--allowedTools",
         String.intercalate "," (get_allowed_tools r.permissions)]
        ++ (if r.permissions = .full_access then ["--dangerously-skip-permissions"] else []),
       ["claude", "-p", prompt, "--output-format", "stream-json", "--model", model.val,
         "--verbose", "--allowedTools",
         String.intercalate "," (get_allowed_tools r.permissions)]
        ++ (if r.permissions = .full_access then ["--dangerously-skip-permissions"] else [])]) := by
  have key : (run_claude_instance r env prompt model false).cmds = [cmdBase r prompt model] ∧
      ((run_claude_instance r env prompt model true).cmds = [cmdWithC r prompt model] ∨
       (run_claude_instance r env prompt model true).cmds =
         [cmdWithC r prompt model, cmdBase r prompt model]) := by
    constructor
    · rfl
    · cases henv : env (cmdWithC r prompt model) with
      | raise e =>
        left
        rw [run_claude_instance_true_raise henv]
      | ran rc stderrRaw lines =>
        rw [run_claude_instance_true_ran henv]
        by_cases hc : rc ≠ 0 ∧ strContains (pyStrip stderrRaw) noHistoryMarker = true
        · right; rw [if_pos hc]
        · left; rw [if_neg hc]
  exact key

/-- Claim C2: When the configuration requests continuation, the first
sub-attempt runs with the continuation flag; if it exits non-zero with the
no-history marker in the diagnostic text, exactly one additional
sub-attempt without the flag is made immediately, within the same attempt
(one `_run_claude_instance` call), before any backoff sleep and without
consuming a retry-budget slot; any other failure of the continuation
sub-attempt is a normal attempt failure. -/
theorem claimC2 (r : ClaudeCodeRunner) (env : List String → ExecResult)
    (prompt : String) (model : CLAUDE_CODE_MODELS) :
    ((run_claude_instance r env prompt model true).cmds.head? =
        some (cmdWithC r prompt model)) ∧
    (∀ rc stderrRaw lines, env (cmdWithC r prompt model) = .ran rc stderrRaw lines →
      ((rc ≠ 0 ∧ strContains (pyStrip stderrRaw) noHistoryMarker = true) →
        run_claude_instance r env prompt model true =
          ⟨attemptResult env (cmdBase r prompt model),
            [cmdWithC r prompt model, cmdBase r prompt model]⟩) ∧
      ((rc = 0 ∨ strContains (pyStrip stderrRaw) noHistoryMarker = false) →
        run_claude_instance r env prompt model true =
          ⟨validateOutcome rc (pyStrip stderrRaw) (stream_stdout_handler lines).2,
            [cmdWithC r prompt model]⟩)) ∧
    (∀ e, env (cmdWithC r prompt model) = .raise e →
      run_claude_instance r env prompt model true =
        ⟨.error e, [cmdWithC r prompt model]⟩) ∧
    (∀ (envS : Nat → List String → ExecResult) rc stderrRaw lines,
      (∀ c, envS 0 c = env c) →
      env (cmdWithC r prompt model) = .ran rc stderrRaw lines →
      rc ≠ 0 → strContains (pyStrip stderrRaw) noHistoryMarker = true →
      (run_claude_code r envS prompt model true).events.take 2 =
        [.exec (cmdWithC r prompt model), .exec (cmdBase r prompt model)]) := by
  refine ⟨?_, ?_, ?_, ?_⟩
  · cases henv : env (cmdWithC r prompt model) with
    | raise e => rw [run_claude_instance_true_raise henv]; rfl
    | ran rc stderrRaw lines =>
      rw [run_claude_instance_true_ran henv]
      by_cases hc : rc ≠ 0 ∧ strContains (pyStrip stderrRaw) noHistoryMarker = true
      · rw [if_pos hc]; rfl
      · rw [if_neg hc]; rfl
  · intro rc stderrRaw lines henv
    constructor
    · intro hc
      rw [run_claude_instance_true_ran henv, if_pos hc]
    · intro hc
      rw [run_claude_instance_true_ran henv, if_neg ?_]
      rcases hc with h0 | hm
      · rintro ⟨hne, _⟩; exact hne h0
      · rintro ⟨_, hmt⟩; rw [hm] at hmt; cases hmt
  · intro e henv
    exact run_claude_instance_true_raise henv
  · intro envS rc stderrRaw lines hS henv hrc hmark
    have henvS : envS 0 = env := funext hS
    have hinst : run_claude_instance r (envS 0) prompt model true =
        ⟨attemptResult env (cmdBase r prompt model),
          [cmdWithC r prompt model, cmdBase r prompt model]⟩ := by
      rw [henvS, run_claude_instance_true_ran henv, if_pos ⟨hrc, hmark⟩]
    show (runLoop r envS prompt model true 0 (r.retries + 1) none).events.take 2 = _
    rw [runLoop]
    simp only [hinst]
    rcases hres : attemptResult env (cmdBase r prompt model) with e | v
    · by_cases hr : retryable e = true
      · simp [hres, hr, List.take]
      · simp [hres, hr, List.take]
    · simp [hres, List.take]

/-- A read-only runner with two retries. -/
def rRO : ClaudeCodeRunner := ⟨.read_only, 2⟩

/-- Environment for the continuation scenario: the `-c` vector exits 1 with
the no-history marker on stderr; the plain vector succeeds. -/
def envContW : List String → ExecResult := fun cmd =>
  if cmd.contains "-c" then .ran 1 "No prior conversation history found" []
  else .ran 0 "" [resLineW]

theorem claimC2_witness :
    run_claude_instance rRO envContW "p" .claude_sonnet_4 true =
      ⟨attemptResult envContW (cmdBase rRO "p" .claude_sonnet_4),
        [cmdWithC rRO "p" .claude_sonnet_4, cmdBase rRO "p" .claude_sonnet_4]⟩ ∧
    (run_claude_code rRO (fun _ => envContW) "p" .claude_sonnet_4 true).events.take 2 =
      [.exec (cmdWithC rRO "p" .claude_sonnet_4), .exec (cmdBase rRO "p" .claude_sonnet_4)] :=
  ⟨((claimC2 rRO envContW "p" .claude_sonnet_4).2.1 1
      "No prior conversation history found" [] rfl).1 ⟨by decide, by decide⟩,
   (claimC2 rRO envContW "p" .claude_sonnet_4).2.2.2 (fun _ => envContW) 1
      "No prior conversation history found" [] (fun _ => rfl) rfl (by decide) (by decide)⟩

/-- Claim C3: A single invocation fails with a `ProcessError` exactly when
the exit code is non-zero (carrying the exit code and the collected
diagnostic text), or the exit code is zero but no terminal result message
was collected, or the collected result has a truthy `is_error` (`true` in
particular) or a subtype other than the literal `"success"` (carrying the
raw result payload); the exit-code failure is checked before the
result-content failure, and otherwise the invocation succeeds, returning
the `result` field of the payload as the run's textual answer. -/
theorem claimC3 (r : ClaudeCodeRunner) (env : List String → ExecResult)
    (prompt : String) (model : CLAUDE_CODE_MODELS) (rc : Int) (stderrRaw : String)
    (lines : List Line)
    (henv : env (cmdBase r prompt model) = .ran rc stderrRaw lines) :
    (rc ≠ 0 →
      (run_claude_instance r env prompt model false).res =
        .error (.processError
          ("CLI tool failed with exit code " ++ toString rc ++ ". Stderr: "
            ++ pyStrip stderrRaw) none)) ∧
    (rc = 0 → (stream_stdout_handler lines).2 = none →
      (run_claude_instance r env prompt model false).res =
        .error (.processError "CLI tool finished but produced no final result object." none)) ∧
    (∀ kvs, rc = 0 → (stream_stdout_handler lines).2 = some (.dict kvs) →
      ((pyTruthy ((pyGet kvs "is_error").getD (.bool true)) = true ∨
          asPyString (pyGet kvs "subtype") ≠ some "success") →
        (run_claude_instance r env prompt model false).res =
          .error (.processError
            ("Claude returned a non-successful result. Subtype: \x27"
              ++ optPyStr (pyGet kvs "subtype") ++ "\x27, Is Error: "
              ++ pyStr ((pyGet kvs "is_error").getD (.bool true)) ++ ".")
            (some (.dict kvs)))) ∧
      (pyTruthy ((pyGet kvs "is_error").getD (.bool true)) = false →
        asPyString (pyGet kvs "subtype") = some "success" →
        (run_claude_instance r env prompt model false).res =
          .ok ((pyGet kvs "result").getD (.str "")))) := by
  rw [run_claude_instance_false henv]
  refine ⟨?_, ?_, ?_⟩
  · intro hrc
    simp [validateOutcome, hrc]
  · intro hrc hres
    subst hrc
    simp [validateOutcome, hres]
  · intro kvs hrc hres
    subst hrc
    have hty := stream_stdout_handler_some hres
    rcases hty with ⟨kvs', hinj, hty⟩
    rw [PyVal.dict.injEq] at hinj
    subst hinj
    have hget : pyGet kvs "type" = some (.str "result") := by
      rcases hg : pyGet kvs "type" with _ | w
      · rw [hg] at hty; cases hty
      · rw [hg] at hty
        cases w <;> simp [asPyString] at hty
        rw [hty]
    have hne : kvs ≠ [] := pyGet_ne_nil hget
    have htruthy : pyTruthy (PyVal.dict kvs) = true := by
      rcases kvs with _ | ⟨p, rest⟩
      · exact absurd rfl hne
      · rfl
    constructor
    · intro hcond
      simp [validateOutcome, hres, htruthy, hcond]
    · intro herr hsub
      simp [validateOutcome, hres, htruthy, herr, hsub]

/-- The payload dict of `resLineW`. -/
def resKvsW : List (String × PyVal) :=
  [("type", .str "result"), ("subtype", .str "success"),
   ("is_error", .bool false), ("result", .str "ok")]

/-- Environment whose launch exits 2 with diagnostic text. -/
def envC3fail : List String → ExecResult := fun _ => .ran 2 " boom " []

/-- Environment whose launch exits 0 with a successful result record. -/
def envC3ok : List String → ExecResult := fun _ => .ran 0 "" [resLineW]

theorem claimC3_witness :
    (run_claude_instance rRO envC3fail "p" .claude_sonnet_4 false).res =
      .error (.processError
        ("CLI tool failed with exit code " ++ toString (2 : Int) ++ ". Stderr: "
          ++ pyStrip " boom ") none) ∧
    (run_claude_instance rRO envC3ok "p" .claude_sonnet_4 false).res =
      .ok ((pyGet resKvsW "result").getD (.str "")) :=
  ⟨(claimC3 rRO envC3fail "p" .claude_sonnet_4 2 " boom " [] rfl).1 (by decide),
   ((claimC3 rRO envC3ok "p" .claude_sonnet_4 0 "" [resLineW] rfl).2.2 resKvsW rfl rfl).2
     rfl rfl⟩

/-- Claim C10: If the subprocess exits zero and emits a terminal result
record lacking the `is_error` field, the invocation is treated as a
failure: `is_error` defaults to true (`result_obj.get("is_error", True)`),
so a `ProcessError` carrying the raw result payload is raised even when the
record's subtype is the literal `"success"`. -/
theorem claimC10 (r : ClaudeCodeRunner) (env : List String → ExecResult)
    (prompt : String) (model : CLAUDE_CODE_MODELS) (stderrRaw : String)
    (lines : List Line) (kvs : List (String × PyVal))
    (henv : env (cmdBase r prompt model) = .ran 0 stderrRaw lines)
    (hres : (stream_stdout_handler lines).2 = some (.dict kvs))
    (hmiss : pyGet kvs "is_error" = none)
    (hsub : pyGet kvs "subtype" = some (.str "success")) :
    (run_claude_instance r env prompt model false).res =
      .error (.processError
        "Claude returned a non-successful result. Subtype: \x27success\x27, Is Error: True."
        (some (.dict kvs))) := by
  rw [run_claude_instance_false henv]
  have hne : kvs ≠ [] := pyGet_ne_nil hsub
  have htruthy : pyTruthy (PyVal.dict kvs) = true := by
    rcases kvs with _ | ⟨p, rest⟩
    · exact absurd rfl hne
    · rfl
  have hemp : kvs.isEmpty = false := by
    rcases kvs with _ | ⟨p, rest⟩
    · exact absurd rfl hne
    · rfl
  show validateOutcome 0 (pyStrip stderrRaw) (stream_stdout_handler lines).2 = _
  rw [hres]
  simp [validateOutcome, hmiss, hsub, htruthy, hemp, optPyStr, pyStr, pyRepr,
    pyTruthy, asPyString]

/-- A result record with subtype `success` but no `is_error` field. -/
def resNoErrW : Line :=
  ⟨"res2", .value (.dict [("type", .str "result"), ("subtype", .str "success"),
    ("result", .str "x")])⟩

/-- Environment whose launch exits 0 emitting `resNoErrW`. -/
def envC10 : List String → ExecResult := fun _ => .ran 0 "" [resNoErrW]

theorem claimC10_witness :
    (run_claude_instance rRO envC10 "p" .claude_sonnet_4 false).res =
      .error (.processError
        "Claude returned a non-successful result. Subtype: \x27success\x27, Is Error: True."
        (some (.dict [("type", .str "result"), ("subtype", .str "success"),
          ("result", .str "x")]))) :=
  claimC10 rRO envC10 "p" .claude_sonnet_4 "" [resNoErrW]
    [("type", .str "result"), ("subtype", .str "success"), ("result", .str "x")]
    rfl rfl rfl rfl

/-! ## Lemmas about the retry loop -/

/-- The events contributed by the `f` consecutive attempts starting at
attempt index `a`: each attempt's backoff sleep (for index ≥ 1) followed by
its subprocess executions, in order. -/
def attemptEventsFrom (r : ClaudeCodeRunner) (env : Nat → List String → ExecResult)
    (prompt : String) (model : CLAUDE_CODE_MODELS) (cc : Bool) :
    Nat → Nat → List RunEvent
  | _, 0 => []
  | a, f + 1 =>
    attemptEvents r env prompt model cc a
      ++ attemptEventsFrom r env prompt model cc (a + 1) f

/-- If every attempt in the window fails with a caught exception class, the
loop runs all its iterations, accumulating each attempt's sleep and
executions, and falls through to the aggregate error whose cause is the
last attempt's error. -/
theorem runLoop_all_fail (r : ClaudeCodeRunner) (env : Nat → List String → ExecResult)
    (prompt : String) (model : CLAUDE_CODE_MODELS) (cc : Bool) :
    ∀ (f a : Nat) (last : Option PyExc),
      (∀ k, a ≤ k → k < a + f →
        ∃ e, instanceRes r env prompt model cc k = .error e ∧ retryable e = true) →
      runLoop r env prompt model cc a f last =
        ⟨attemptEventsFrom r env prompt model cc a f,
          f,
          .exhausted
            ("All " ++ toString (r.retries + 1) ++ " attempts to run Claude failed.")
            (if f = 0 then last
             else errPart (instanceRes r env prompt model cc (a + f - 1)))⟩
  | 0, a, last, _ => by simp [runLoop, attemptEventsFrom]
  | f + 1, a, last, h => by
    obtain ⟨e, he, hr⟩ := h a (Nat.le_refl a) (by omega)
    have ih := runLoop_all_fail r env prompt model cc f (a + 1) (some e)
      (fun k hk1 hk2 => h k (by omega) (by omega))
    have he2 : (run_claude_instance r (env a) prompt model cc).res = .error e := he
    rw [runLoop]
    simp only [he2, hr, if_true, ih]
    simp only [RunTrace.mk.injEq]
    refine ⟨?_, by omega, ?_⟩
    · simp [attemptEventsFrom, attemptEvents, List.append_assoc]
    · rcases f with _ | g
      · simp [errPart, he2, instanceRes]
      · have hidx : a + 1 + (g + 1) - 1 = a + (g + 1 + 1) - 1 := by omega
        simp only [hidx]
        simp

/-- If the attempts before `j` fail with caught exceptions and attempt
`a + j` raises an uncaught exception class, the loop stops there: the
exception propagates, with no later sleep, attempt, or aggregate error. -/
theorem runLoop_fatal (r : ClaudeCodeRunner) (env : Nat → List String → ExecResult)
    (prompt : String) (model : CLAUDE_CODE_MODELS) (cc : Bool) :
    ∀ (j f a : Nat) (last : Option PyExc) (e : PyExc),
      j < f →
      (∀ k, a ≤ k → k < a + j →
        ∃ e', instanceRes r env prompt model cc k = .error e' ∧ retryable e' = true) →
      instanceRes r env prompt model cc (a + j) = .error e →
      retryable e = false →
      runLoop r env prompt model cc a f last =
        ⟨attemptEventsFrom r env prompt model cc a (j + 1), j + 1, .fatal e⟩
  | 0, 0, _, _, _, hjf, _, _, _ => absurd hjf (by omega)
  | 0, f + 1, a, last, e, _, _, he, hnr => by
    have he2 : (run_claude_instance r (env a) prompt model cc).res = .error e := he
    rw [runLoop]
    simp only [he2, hnr]
    simp [attemptEventsFrom, attemptEvents]
  | j + 1, 0, _, _, _, hjf, _, _, _ => absurd hjf (by omega)
  | j + 1, f + 1, a, last, e, hjf, h, he, hnr => by
    obtain ⟨e0, he0, hr0⟩ := h a (Nat.le_refl a) (by omega)
    have ih := runLoop_fatal r env prompt model cc j f (a + 1) (some e0) e (by omega)
      (fun k hk1 hk2 => h k (by omega) (by omega))
      (by rw [show a + 1 + j = a + (j + 1) from by omega]; exact he) hnr
    have he2 : (run_claude_instance r (env a) prompt model cc).res = .error e0 := he0
    rw [runLoop]
    simp only [he2, hr0, if_true, ih]
    simp only [RunTrace.mk.injEq]
    refine ⟨?_, by omega, trivial⟩
    simp [attemptEventsFrom, attemptEvents, List.append_assoc]

/-! ## Claims about the retry supervisor (C1, C9) -/

/-- Claim C1: For a configuration whose retry budget is `n` (clamped to be
non-negative at construction, so `n = (max 0 z).toNat`), if every attempt
fails with a `ProcessError` or an OS-level launch failure, then
`run_claude_code` makes exactly `n + 1` attempts, sleeping `2 ^ attempt`
time units before each attempt after the first (`attemptEventsFrom`/
`attemptEvents` place `sleep (2 ^ k)` directly before attempt `k`'s
executions for every `k ≥ 1`, so the delays are `2, 4, …, 2 ^ n` in
order), and then raises a single aggregate error whose message states the
`n + 1` attempts made and whose cause is the last attempt's error. -/
theorem claimC1 (p : FilePermissions) (z : Int)
    (env : Nat → List String → ExecResult) (prompt : String)
    (model : CLAUDE_CODE_MODELS) (cc : Bool)
    (h : ∀ k, k ≤ (ClaudeCodeRunner.init p z).retries →
      ∃ e, instanceRes (ClaudeCodeRunner.init p z) env prompt model cc k = .error e ∧
        retryable e = true) :
    run_claude_code (ClaudeCodeRunner.init p z) env prompt model cc =
      ⟨attemptEventsFrom (ClaudeCodeRunner.init p z) env prompt model cc 0
          ((ClaudeCodeRunner.init p z).retries + 1),
        (ClaudeCodeRunner.init p z).retries + 1,
        .exhausted
          ("All " ++ toString ((ClaudeCodeRunner.init p z).retries + 1)
            ++ " attempts to run Claude failed.")
          (errPart (instanceRes (ClaudeCodeRunner.init p z) env prompt model cc
            (ClaudeCodeRunner.init p z).retries))⟩ := by
  have key := runLoop_all_fail (ClaudeCodeRunner.init p z) env prompt model cc
    ((ClaudeCodeRunner.init p z).retries + 1) 0 none
    (fun k _ hk2 => h k (by omega))
  rw [run_claude_code, key]
  simp

/-- Environment in which every launch exits 1. -/
def envFailW : Nat → List String → ExecResult := fun _ _ => .ran 1 "boom" []

theorem claimC1_witness :
    run_claude_code (ClaudeCodeRunner.init .read_only 2) envFailW "p" .claude_sonnet_4 false =
      ⟨attemptEventsFrom (ClaudeCodeRunner.init .read_only 2) envFailW "p"
          .claude_sonnet_4 false 0 ((ClaudeCodeRunner.init .read_only 2).retries + 1),
        (ClaudeCodeRunner.init .read_only 2).retries + 1,
        .exhausted
          ("All " ++ toString ((ClaudeCodeRunner.init .read_only 2).retries + 1)
            ++ " attempts to run Claude failed.")
          (errPart (instanceRes (ClaudeCodeRunner.init .read_only 2) envFailW "p"
            .claude_sonnet_4 false (ClaudeCodeRunner.init .read_only 2).retries))⟩ ∧
    (run_claude_code (ClaudeCodeRunner.init .read_only 2) envFailW "p"
        .claude_sonnet_4 false).events =
      [.exec (cmdBase rRO "p" .claude_sonnet_4),
       .sleep 2, .exec (cmdBase rRO "p" .claude_sonnet_4),
       .sleep 4, .exec (cmdBase rRO "p" .claude_sonnet_4)] ∧
    (run_claude_code (ClaudeCodeRunner.init .read_only 2) envFailW "p"
        .claude_sonnet_4 false).attempts = 3 ∧
    (run_claude_code (ClaudeCodeRunner.init .read_only 2) envFailW "p"
        .claude_sonnet_4 false).outcome =
      .exhausted "All 3 attempts to run Claude failed."
        (some (.processError "CLI tool failed with exit code 1. Stderr: boom" none)) :=
  ⟨claimC1 .read_only 2 envFailW "p" .claude_sonnet_4 false
      (fun _ _ =>
        ⟨.processError "CLI tool failed with exit code 1. Stderr: boom" none, rfl, rfl⟩),
   rfl, rfl, rfl⟩

/-- Claim C9: Only `ClaudeProcessError` and process-launch-level OS failures
are caught and retried; an attempt raising any other exception class
propagates it immediately as a fatal condition: no further attempts, no
backoff sleep after it, and no aggregate exhaustion error. -/
theorem claimC9 (p : FilePermissions) (z : Int)
    (env : Nat → List String → ExecResult) (prompt : String)
    (model : CLAUDE_CODE_MODELS) (cc : Bool) (k : Nat) (e : PyExc)
    (hk : k ≤ (ClaudeCodeRunner.init p z).retries)
    (hfail : ∀ j, j < k →
      ∃ e', instanceRes (ClaudeCodeRunner.init p z) env prompt model cc j = .error e' ∧
        retryable e' = true)
    (he : instanceRes (ClaudeCodeRunner.init p z) env prompt model cc k = .error e)
    (hnr : retryable e = false) :
    run_claude_code (ClaudeCodeRunner.init p z) env prompt model cc =
      ⟨attemptEventsFrom (ClaudeCodeRunner.init p z) env prompt model cc 0 (k + 1),
        k + 1, .fatal e⟩ := by
  have key := runLoop_fatal (ClaudeCodeRunner.init p z) env prompt model cc k
    ((ClaudeCodeRunner.init p z).retries + 1) 0 none e (by omega)
    (fun j _ hj2 => hfail j (by omega))
    (by simpa using he) hnr
  rw [run_claude_code, key]

/-- Environment whose first attempt exits 1 and whose later attempts raise
an exception class the loop does not catch. -/
def envFatalW : Nat → List String → ExecResult := fun n _ =>
  if n = 0 then .ran 1 "x" [] else .raise (.other "cancelled")

theorem claimC9_witness :
    run_claude_code (ClaudeCodeRunner.init .read_only 2) envFatalW "p" .claude_sonnet_4 false =
      ⟨attemptEventsFrom (ClaudeCodeRunner.init .read_only 2) envFatalW "p"
          .claude_sonnet_4 false 0 2, 2, .fatal (.other "cancelled")⟩ ∧
    (run_claude_code (ClaudeCodeRunner.init .read_only 2) envFatalW "p"
        .claude_sonnet_4 false).events =
      [.exec (cmdBase rRO "p" .claude_sonnet_4),
       .sleep 2, .exec (cmdBase rRO "p" .claude_sonnet_4)] ∧
    (run_claude_code (ClaudeCodeRunner.init .read_only 2) envFatalW "p"
        .claude_sonnet_4 false).attempts = 2 :=
  ⟨claimC9 .read_only 2 envFatalW "p" .claude_sonnet_4 false 1 (.other "cancelled")
      (by decide)
      (fun j hj =>
        match j, hj with
        | 0, _ =>
          ⟨.processError "CLI tool failed with exit code 1. Stderr: x" none, rfl, rfl⟩)
      rfl rfl,
   rfl, rfl⟩
